import Mathlib

/-!
Shallow embedding of the `larie-portfolio` Flask application
(`app.py` and `config/config.py`) and proofs about its behaviour.

JSON values (the shape of the data file, of request bodies and of
responses) are modelled by the `Json` inductive below.  Python objects
(`dict`) are association lists with unique keys (a Python `dict` cannot
hold a duplicate key); JSON numbers are modelled as integers, which
covers every value the claims are about.  A Python exception escaping a
handler is modelled with `Except String`; Flask surfaces such an
exception as a 500 response (see `handle`).
-/

/-- A JSON value as Python's `json.load` / Flask's `request.get_json`
produce it: `None`, booleans, (integer) numbers, strings, lists and
dicts. -/
inductive Json where
  | null : Json
  | bool (b : Bool) : Json
  | num (n : Int) : Json
  | str (s : String) : Json
  | arr (elems : List Json) : Json
  | obj (fields : List (String × Json)) : Json
deriving Repr

/-- First-match lookup in an association list.  On the duplicate-free
lists that model Python dicts this is exactly `d[key]` /
`KeyError` when absent. -/
def lookupStr {α : Type} : List (String × α) → String → Option α
  | [], _ => none
  | (k, v) :: rest, key => if k = key then some v else lookupStr rest key

/-- Python's `x[key]` on a JSON value: a value for a dict holding the
key, `none` both for a dict without the key (`KeyError`) and for a
non-dict (`TypeError`). -/
def Json.getKey : Json → String → Option Json
  | .obj fields, key => lookupStr fields key
  | _, _ => none

/-- Python truthiness of a JSON value: `None`, `False`, `0`, `""`,
`[]` and the empty dict are falsy, everything else is truthy. -/
def truthy : Json → Bool
  | .null => false
  | .bool b => b
  | .num n => n != 0
  | .str s => s != ""
  | .arr elems => !elems.isEmpty
  | .obj fields => !fields.isEmpty

/-! ## app.py: the portfolio data store -/

/-- The fixed relative path the loader reads:
`os.path.join('data', 'portfolio_data.json')`. -/
def dataPath : String := "data/portfolio_data.json"

/-- A filesystem state, as the loader observes it: the parsed JSON
content of each existing JSON file, `none` for an absent file.  (A
file that exists but is malformed JSON makes `json.load` raise and
startup abort; that unrecovered failure mode is outside this model,
which covers the exists/absent cases the behaviour is specified for.) -/
def FileSystem : Type := String → Option Json

/-- `get_default_data` from `app.py`: the built-in default document
returned when the data file does not exist. -/
def get_default_data : Json :=
  .obj
    [ ("name", .str "Your Name"),
      ("title", .str "UI/UX Designer"),
      ("email", .str "your.email@example.com"),
      ("linkedin", .str "linkedin.com/in/yourprofile"),
      ("behance", .str "behance.net/yourprofile"),
      ("bio", .str "Passionate UI/UX designer with expertise in creating intuitive and visually stunning digital experiences."),
      ("skills", .arr [.str "UI Design", .str "UX Research", .str "Figma",
                       .str "Prototyping", .str "User Testing", .str "Wireframing"]),
      ("projects", .arr []) ]

/-- `load_portfolio_data` from `app.py`: if a file exists at
`dataPath`, parse and return it; otherwise return the default. -/
def load_portfolio_data (fs : FileSystem) : Json :=
  match fs dataPath with
  | some doc => doc
  | none => get_default_data

/-! ## app.py: the route handlers -/

/-- Body of the 404 answer of `get_project`. -/
def projectNotFoundBody : Json := .obj [("error", .str "Project not found")]

/-- Body of the `errorhandler(500)` answer. -/
def internalErrorBody : Json := .obj [("error", .str "Internal server error")]

/-- Success body of `contact`. -/
def contactSuccessBody : Json :=
  .obj [("status", .str "success"),
        ("message", .str "Your inquiry has been received. Thank you!")]

/-- Error body of `contact`. -/
def contactErrorBody : Json :=
  .obj [("status", .str "error"), ("message", .str "No data received")]

/-- `get_projects` from `app.py`: `jsonify(PORTFOLIO_DATA['projects'])`.
The subscript raises `KeyError` when the loaded document has no
`projects` key (or is not a dict); the escaping exception is the
`.error` case. -/
def get_projects (doc : Json) : Except String Json :=
  match doc.getKey "projects" with
  | some projects => .ok projects
  | none => .error "KeyError: projects"

/-- Python's `p['id'] == project_id` where `project_id` is an `int`:
`==` never raises; a number matches by value, and `True`/`False`
compare equal to `1`/`0` as in Python; any other value is unequal. -/
def idMatches : Json → Int → Bool
  | .num n, pid => n == pid
  | .bool b, pid => (if b then (1 : Int) else 0) == pid
  | _, _ => false

/-- The generator of `get_project`:
`next((p for p in projects if p['id'] == project_id), None)`.
Walks the list in stored order; `p['id']` on an element that is not a
dict holding an `id` key raises (the `.error` case) before any later
element is reached; otherwise the first match, or `none`. -/
def findProject : List Json → Int → Except String (Option Json)
  | [], _ => .ok none
  | p :: rest, pid =>
    match p.getKey "id" with
    | none => .error "KeyError: id"
    | some v => if idMatches v pid then .ok (some p) else findProject rest pid

/-- `get_project` from `app.py`.  `PORTFOLIO_DATA['projects']` raises
when the key is absent; iterating a non-list either yields elements on
which `p['id']` raises (`TypeError`: non-empty string or dict) or is
empty (empty string or dict, falling through to the 404).  A found
project is returned with 200 when truthy (`if project:`); `None` — and
a falsy match, were one possible — gives the 404 body. -/
def get_project (doc : Json) (project_id : Int) : Except String (Nat × Json) :=
  match doc.getKey "projects" with
  | none => .error "KeyError: projects"
  | some (.arr projects) =>
    match findProject projects project_id with
    | .error e => .error e
    | .ok (some p) =>
      if truthy p then .ok (200, p) else .ok (404, projectNotFoundBody)
    | .ok none => .ok (404, projectNotFoundBody)
  | some (.str s) =>
    if s.isEmpty then .ok (404, projectNotFoundBody)
    else .error "TypeError: string indices must be integers"
  | some (.obj fields) =>
    if fields.isEmpty then .ok (404, projectNotFoundBody)
    else .error "TypeError: string indices must be integers"
  | some _ => .error "TypeError: not iterable"

/-- `contact` from `app.py`.  The input is the result of
`request.get_json()`: `some d` when the request body parsed as JSON,
`none` when it was absent or unparseable.  `if not data:` is Python
truthiness on the parsed value. -/
def contact (body : Option Json) : Nat × Json :=
  match body with
  | none => (400, contactErrorBody)
  | some data =>
    if truthy data then (200, contactSuccessBody)
    else (400, contactErrorBody)

/-! ## app.py: the HTTP surface as one step function -/

/-- A request to one of the four routes.  A contact request carries
the result of parsing its body. -/
inductive Request where
  | index : Request
  | listProjects : Request
  | getProjectById (project_id : Int) : Request
  | contactPost (body : Option Json) : Request

/-- A response: the rendered home page (embedding the document handed
to the template) or a JSON answer with its status code. -/
inductive HttpResponse where
  | html (data : Json) : HttpResponse
  | json (status : Nat) (body : Json) : HttpResponse

/-- One request handled against the in-memory `PORTFOLIO_DATA`
document: the response, paired with the document as it stands after
the request.  An exception escaping a handler is turned into the
`errorhandler(500)` answer.  No handler rebinds or mutates
`PORTFOLIO_DATA`, so each branch hands the document back unchanged. -/
def handle (doc : Json) : Request → HttpResponse × Json
  | .index => (.html doc, doc)
  | .listProjects =>
    match get_projects doc with
    | .ok projects => (.json 200 projects, doc)
    | .error _ => (.json 500 internalErrorBody, doc)
  | .getProjectById pid =>
    match get_project doc pid with
    | .ok (status, body) => (.json status body, doc)
    | .error _ => (.json 500 internalErrorBody, doc)
  | .contactPost body =>
    let (status, answer) := contact body
    (.json status answer, doc)

/-! ## config/config.py -/

/-- The three `Config` subclasses of `config/config.py`. -/
inductive ConfigVariant where
  | development : ConfigVariant
  | production : ConfigVariant
  | testing : ConfigVariant
deriving DecidableEq, Repr

/-- The process environment as `os.environ.get` observes it. -/
def Env : Type := String → Option String

/-- The module-level `config` dictionary:
development/production/testing plus `default` aliased to development. -/
def configTable : List (String × ConfigVariant) :=
  [ ("development", .development),
    ("production", .production),
    ("testing", .testing),
    ("default", .development) ]

/-- `get_config` from `config/config.py`: when `config_name` is
`None`, read `FLASK_ENV` (defaulting to `development`), then look the
name up in `config`, falling back to `DevelopmentConfig`. -/
def get_config (env : Env) (config_name : Option String) : ConfigVariant :=
  let name :=
    match config_name with
    | some n => n
    | none => (env "FLASK_ENV").getD "development"
  (lookupStr configTable name).getD .development

/-- `ProductionConfig.init_app`: raises `ValueError` when
`os.environ.get('SECRET_KEY')` is falsy — absent, or set to the empty
string.  (The directory creation and the rotating-log attachment the
method also performs are side effects outside this model.) -/
def ProductionConfig.init_app (env : Env) : Except String Unit :=
  match env "SECRET_KEY" with
  | none => .error "SECRET_KEY environment variable must be set in production!"
  | some s =>
    if s.isEmpty then
      .error "SECRET_KEY environment variable must be set in production!"
    else .ok ()

/-- Startup of `app.py` under a selected configuration variant:
`PORTFOLIO_DATA = load_portfolio_data()`.  The loader reads the fixed
relative path `dataPath` and takes no input from the configuration —
`app.py` never imports `config` and never consults
`EnvironmentConfig.DATA_FILE` — which the unused parameter records. -/
def startupLoad (_cfg : ConfigVariant) (fs : FileSystem) : Json :=
  load_portfolio_data fs

/-! ## Helper notions and lemmas -/

/-- The search predicate of `get_project`, restricted to elements on
which `p['id']` does not raise: the element holds an `id` key whose
value compares equal to the requested id. -/
def hasMatchingId (pid : Int) (p : Json) : Bool :=
  match p.getKey "id" with
  | some v => idMatches v pid
  | none => false

lemma truthy_of_getKey_some (p : Json) (key : String) (v : Json)
    (hv : p.getKey key = some v) : truthy p = true := by
  cases p <;> simp [Json.getKey] at hv
  rename_i fields
  cases fields with
  | nil => simp [lookupStr] at hv
  | cons f rest => simp [truthy]

lemma truthy_of_hasMatchingId (pid : Int) (p : Json)
    (h : hasMatchingId pid p = true) : truthy p = true := by
  unfold hasMatchingId at h
  cases hv : p.getKey "id" with
  | none => rw [hv] at h; simp at h
  | some v => exact truthy_of_getKey_some p "id" v hv

lemma findProject_eq_find? (pid : Int) (ps : List Json)
    (hids : ∀ p ∈ ps, (p.getKey "id").isSome) :
    findProject ps pid = .ok (ps.find? (hasMatchingId pid)) := by
  induction ps with
  | nil => rfl
  | cons p rest ih =>
    have hp : (p.getKey "id").isSome := hids p (List.mem_cons_self p rest)
    obtain ⟨v, hv⟩ := Option.isSome_iff_exists.mp hp
    have hmatch : hasMatchingId pid p = idMatches v pid := by
      unfold hasMatchingId; rw [hv]
    by_cases hm : idMatches v pid = true
    · simp [findProject, hv, hm, List.find?_cons_of_pos, hmatch]
    · have hrest := ih (fun q hq => hids q (List.mem_cons_of_mem p hq))
      simp [findProject, hv, hm, hrest, List.find?_cons_of_neg, hmatch]

lemma findProject_missing_id_error (pid : Int) (bad : Json) (rest : List Json)
    (hbad : bad.getKey "id" = none) (pre : List Json)
    (hpre : ∀ p ∈ pre, hasMatchingId pid p = false) :
    findProject (pre ++ bad :: rest) pid = .error "KeyError: id" := by
  induction pre with
  | nil => simp [findProject, hbad]
  | cons p pre' ih =>
    have hp := hpre p (List.mem_cons_self p pre')
    cases hv : p.getKey "id" with
    | none => simp [findProject, hv]
    | some v =>
      have hm : idMatches v pid = false := by
        unfold hasMatchingId at hp; rwa [hv] at hp
      have := ih (fun q hq => hpre q (List.mem_cons_of_mem p hq))
      simp [findProject, hv, hm, this]

/-! ## The claims -/

/-- C1: `load_portfolio_data` returns the parsed content of the JSON
data file exactly when the file exists at the data path, and when the
file does not exist it returns the built-in default document, whose
`name` field is `Your Name` and whose `projects` list is empty. -/
theorem load_portfolio_data_exists_or_default (fs : FileSystem) :
    (∀ doc, fs dataPath = some doc → load_portfolio_data fs = doc) ∧
    (fs dataPath = none →
      load_portfolio_data fs = get_default_data ∧
      get_default_data.getKey "name" = some (.str "Your Name") ∧
      get_default_data.getKey "projects" = some (.arr [])) := by
  constructor
  · intro doc h; simp [load_portfolio_data, h]
  · intro h; exact ⟨by simp [load_portfolio_data, h], rfl, rfl⟩

theorem load_portfolio_data_exists_or_default_witness :
    load_portfolio_data
        (fun p => if p = "data/portfolio_data.json"
                  then some (.obj [("name", .str "Larie")]) else none) =
      .obj [("name", .str "Larie")] ∧
    load_portfolio_data (fun _ => none) = get_default_data :=
  ⟨(load_portfolio_data_exists_or_default _).1 _ rfl,
   ((load_portfolio_data_exists_or_default (fun _ => none)).2 rfl).1⟩

/-- C2: for a document whose `projects` field is a list of elements
each holding an `id` key (`p['id']` raises otherwise — see C10),
`get_project` returns, with status 200, the first project in stored
order whose `id` field equals the requested id; when no project has
that id it answers 404 with the `Project not found` body.  First-match
semantics under duplicate ids is exactly `List.find?`. -/
theorem get_project_first_match (doc : Json) (pid : Int) (ps : List Json)
    (hps : doc.getKey "projects" = some (.arr ps))
    (hids : ∀ p ∈ ps, (p.getKey "id").isSome) :
    (∀ p, ps.find? (hasMatchingId pid) = some p →
      get_project doc pid = .ok (200, p)) ∧
    (ps.find? (hasMatchingId pid) = none →
      get_project doc pid = .ok (404, projectNotFoundBody)) := by
  have hfp := findProject_eq_find? pid ps hids
  constructor
  · intro p hfind
    have hm : hasMatchingId pid p = true := List.find?_some hfind
    have ht := truthy_of_hasMatchingId pid p hm
    simp [get_project, hps, hfp, hfind, ht]
  · intro hfind
    simp [get_project, hps, hfp, hfind]

theorem get_project_first_match_witness :
    get_project
        (.obj [("projects", .arr
          [ .obj [("id", .num 1), ("name", .str "a")],
            .obj [("id", .num 2), ("name", .str "b")],
            .obj [("id", .num 2), ("name", .str "c")] ])]) 2 =
      .ok (200, .obj [("id", .num 2), ("name", .str "b")]) ∧
    get_project
        (.obj [("projects", .arr
          [ .obj [("id", .num 1), ("name", .str "a")],
            .obj [("id", .num 2), ("name", .str "b")],
            .obj [("id", .num 2), ("name", .str "c")] ])]) 99999 =
      .ok (404, projectNotFoundBody) :=
  ⟨(get_project_first_match
      (.obj [("projects", .arr
        [ .obj [("id", .num 1), ("name", .str "a")],
          .obj [("id", .num 2), ("name", .str "b")],
          .obj [("id", .num 2), ("name", .str "c")] ])]) 2
      [ .obj [("id", .num 1), ("name", .str "a")],
        .obj [("id", .num 2), ("name", .str "b")],
        .obj [("id", .num 2), ("name", .str "c")] ]
      rfl (by decide)).1 _ rfl,
   (get_project_first_match
      (.obj [("projects", .arr
        [ .obj [("id", .num 1), ("name", .str "a")],
          .obj [("id", .num 2), ("name", .str "b")],
          .obj [("id", .num 2), ("name", .str "c")] ])]) 99999
      [ .obj [("id", .num 1), ("name", .str "a")],
        .obj [("id", .num 2), ("name", .str "b")],
        .obj [("id", .num 2), ("name", .str "c")] ]
      rfl (by decide)).2 rfl⟩

/-- C3 counterexample: the empty JSON object is a present, parseable
body, yet `contact` answers 400 with the `No data received` body, not
the 200 success acknowledgment the claim requires. -/
theorem contact_empty_object_rejected :
    contact (some (.obj [])) = (400, contactErrorBody) ∧
    contact (some (.obj [])) ≠ (200, contactSuccessBody) :=
  ⟨rfl, by
    intro h
    have h1 : (400 : Nat) = 200 := congrArg Prod.fst h
    omega⟩

/-- C3 (amended): `contact` answers 200 with the fixed success body
when the request body parses to a truthy JSON value, and answers 400
with the `No data received` body exactly when the body is absent or
unparseable, or parses to a falsy JSON value (`\x7b\x7d`, `[]`, `0`,
`false`, the empty string, or `null`). -/
theorem contact_truthy_success (body : Option Json) :
    (∀ d, body = some d → truthy d = true →
      contact body = (200, contactSuccessBody)) ∧
    (contact body = (400, contactErrorBody) ↔
      body = none ∨ ∃ d, body = some d ∧ truthy d = false) := by
  constructor
  · intro d hb ht; subst hb; simp [contact, ht]
  · cases body with
    | none => simp [contact]
    | some d =>
      by_cases ht : truthy d = true
      · simp [contact, ht, Prod.ext_iff]
      · simp only [Bool.not_eq_true] at ht
        simp [contact, ht]

theorem contact_truthy_success_witness :
    contact (some (.obj [("name", .str "A"), ("email", .str "a@b.com"),
                         ("message", .str "hi")])) =
      (200, contactSuccessBody) ∧
    contact none = (400, contactErrorBody) :=
  ⟨(contact_truthy_success _).1 _ rfl rfl,
   (contact_truthy_success none).2.mpr (Or.inl rfl)⟩

/-- C4: the production variant `init_app` raises the configuration
error whenever no externally supplied secret value is present in the
`SECRET_KEY` environment variable, and completes without raising when
a (non-empty) secret value is set.  By Python truthiness an empty
string supplies no secret value and raises as well, which the
embedding records. -/
theorem production_init_app_secret_guard (env : Env) :
    (env "SECRET_KEY" = none →
      ProductionConfig.init_app env =
        .error "SECRET_KEY environment variable must be set in production!") ∧
    (∀ s, env "SECRET_KEY" = some s → s ≠ "" →
      ProductionConfig.init_app env = .ok ()) := by
  constructor
  · intro h; simp [ProductionConfig.init_app, h]
  · intro s hs hne
    simp [ProductionConfig.init_app, hs, String.isEmpty_iff, hne]

theorem production_init_app_secret_guard_witness :
    ProductionConfig.init_app (fun _ => none) =
      .error "SECRET_KEY environment variable must be set in production!" ∧
    ProductionConfig.init_app
        (fun k => if k = "SECRET_KEY" then some "prod-secret" else none) =
      .ok () :=
  ⟨(production_init_app_secret_guard _).1 rfl,
   (production_init_app_secret_guard _).2 "prod-secret" rfl (by decide)⟩

/-- C5: `get_config` maps each known environment name to its variant
(with `default` aliased to development), maps every unknown name to
the development variant instead of failing, and, when the name
argument is omitted, reads the `FLASK_ENV` environment variable,
defaulting to `development`. -/
theorem get_config_lookup (env : Env) :
    get_config env (some "development") = .development ∧
    get_config env (some "production") = .production ∧
    get_config env (some "testing") = .testing ∧
    get_config env (some "default") = .development ∧
    (∀ s, s ∉ ["development", "production", "testing", "default"] →
      get_config env (some s) = .development) ∧
    get_config env none =
      get_config env (some ((env "FLASK_ENV").getD "development")) := by
  refine ⟨rfl, rfl, rfl, rfl, ?_, rfl⟩
  intro s hs
  simp only [List.mem_cons, List.not_mem_nil, or_false, not_or] at hs
  obtain ⟨h1, h2, h3, h4⟩ := hs
  have g1 : ("development" : String) ≠ s := fun h => h1 h.symm
  have g2 : ("production" : String) ≠ s := fun h => h2 h.symm
  have g3 : ("testing" : String) ≠ s := fun h => h3 h.symm
  have g4 : ("default" : String) ≠ s := fun h => h4 h.symm
  simp [get_config, configTable, lookupStr, g1, g2, g3, g4]

theorem get_config_lookup_witness :
    get_config (fun _ => none) (some "staging") = .development ∧
    get_config (fun _ => none) (some "production") = .production :=
  ⟨(get_config_lookup (fun _ => none)).2.2.2.2.1 "staging" (by decide),
   (get_config_lookup (fun _ => none)).2.1⟩

/-- C6: `get_projects` returns exactly the `projects` field of the
loaded document, as the same JSON value — the same sequence in the
same stored order with every field of every project unchanged. -/
theorem get_projects_returns_field (doc : Json) (projects : Json)
    (h : doc.getKey "projects" = some projects) :
    get_projects doc = .ok projects := by
  simp [get_projects, h]

theorem get_projects_returns_field_witness :
    get_projects
        (.obj [("name", .str "Larie"),
               ("projects", .arr [.obj [("id", .num 2), ("title", .str "t")],
                                  .obj [("id", .num 1)]])]) =
      .ok (.arr [.obj [("id", .num 2), ("title", .str "t")],
                 .obj [("id", .num 1)]]) :=
  get_projects_returns_field _
    (.arr [.obj [("id", .num 2), ("title", .str "t")], .obj [("id", .num 1)]])
    rfl

/-- C7: no HTTP operation mutates the shared in-memory document: for
every request, the document `handle` hands back equals the document it
was given. -/
theorem handle_preserves_document (doc : Json) (r : Request) :
    (handle doc r).2 = doc := by
  cases r with
  | index => rfl
  | listProjects => cases h : get_projects doc <;> simp [handle, h]
  | getProjectById pid =>
    rcases h : get_project doc pid with e | ⟨s, b⟩ <;> simp [handle, h]
  | contactPost body => rfl

/-- C8: the loaded document is independent of the selected
configuration variant: startup reads the fixed relative path
`data/portfolio_data.json` and never consults
`EnvironmentConfig.DATA_FILE`, so any two configuration selections
over filesystems agreeing at that one path load identical documents —
in particular the testing variant with its redirected data-file path. -/
theorem startupLoad_config_independent (c₁ c₂ : ConfigVariant)
    (fs fs' : FileSystem) (h : fs dataPath = fs' dataPath) :
    startupLoad c₁ fs = startupLoad c₂ fs' := by
  simp [startupLoad, load_portfolio_data, h]

theorem startupLoad_config_independent_witness :
    startupLoad .testing
        (fun p => if p = "data/portfolio_data.json"
                  then some (.obj [("name", .str "A")]) else none) =
      startupLoad .production
        (fun p => if p = "data/portfolio_data.json"
                  then some (.obj [("name", .str "A")])
                  else if p = "tests/test_portfolio_data.json"
                  then some (.obj [("name", .str "B")]) else none) :=
  startupLoad_config_independent .testing .production _ _ rfl

/-- C9: a request body that parses to a falsy JSON value — the empty
object, the empty array, `0`, `false`, the empty string, or `null` —
is answered 400 with the `No data received` body, although it is
valid, parseable JSON. -/
theorem contact_falsy_bodies_rejected :
    contact (some (.obj [])) = (400, contactErrorBody) ∧
    contact (some (.arr [])) = (400, contactErrorBody) ∧
    contact (some (.num 0)) = (400, contactErrorBody) ∧
    contact (some (.bool false)) = (400, contactErrorBody) ∧
    contact (some (.str "")) = (400, contactErrorBody) ∧
    contact (some .null) = (400, contactErrorBody) :=
  ⟨rfl, rfl, rfl, rfl, rfl, rfl⟩

/-- C10: `get_project` is only safe when every element of the
`projects` list holds an `id` key: if some element lacks it and the
requested id matches no earlier element, `p['id']` raises an uncaught
`KeyError` — surfaced by the 500 error handler — instead of a result
or a 404. -/
theorem get_project_missing_id_crashes (doc : Json) (pid : Int)
    (pre : List Json) (bad : Json) (rest : List Json)
    (hps : doc.getKey "projects" = some (.arr (pre ++ bad :: rest)))
    (hbad : bad.getKey "id" = none)
    (hpre : ∀ p ∈ pre, hasMatchingId pid p = false) :
    get_project doc pid = .error "KeyError: id" ∧
    (handle doc (.getProjectById pid)).1 = .json 500 internalErrorBody := by
  have herr := findProject_missing_id_error pid bad rest hbad pre hpre
  have hget : get_project doc pid = .error "KeyError: id" := by
    simp [get_project, hps, herr]
  exact ⟨hget, by simp [handle, hget]⟩

theorem get_project_missing_id_crashes_witness :
    get_project
        (.obj [("projects", .arr
          [ .obj [("id", .num 1)], .obj [("name", .str "untitled")] ])]) 5 =
      .error "KeyError: id" ∧
    (handle
        (.obj [("projects", .arr
          [ .obj [("id", .num 1)], .obj [("name", .str "untitled")] ])])
        (.getProjectById 5)).1 = .json 500 internalErrorBody :=
  get_project_missing_id_crashes
    (.obj [("projects", .arr
      [ .obj [("id", .num 1)], .obj [("name", .str "untitled")] ])]) 5
    [.obj [("id", .num 1)]] (.obj [("name", .str "untitled")]) []
    rfl rfl (by decide)
